import Mathlib

/-!
Shallow embedding of `src/app.py` (Lylo — local transcription + research form).

The file embeds the two request handlers (`/api/transcribe`, `/api/submit`),
the email helper `send_email`, and the startup email configuration, and proves
the spec claims about them.  External effects (the Whisper model, the SMTP
session, writing the upload to the scratch file, `os.remove`) are inputs of
the embedded handlers: each such input says what the corresponding library
call would have done (returned normally, or raised with a message).
-/

namespace Lylo

/-! ### Python string primitives used by the handlers -/

/-- Python `str.strip()`: drop whitespace from both ends of the string. -/
def pyStrip (s : String) : String :=
  ⟨((s.data.dropWhile Char.isWhitespace).reverse.dropWhile Char.isWhitespace).reverse⟩

/-- Python `sep.join(xs)`: the elements of `xs` concatenated with `sep` between
consecutive elements (and nothing added for an empty or singleton list). -/
def pyJoin (sep : String) : List String → String
  | [] => ""
  | [s] => s
  | s :: rest => s ++ sep ++ pyJoin sep rest

/-- Decimal digits to a number; `none` when empty or a non-digit appears. -/
def digitsToNat (cs : List Char) : Option Nat :=
  match cs with
  | [] => none
  | _ =>
    cs.foldl
      (fun acc c =>
        match acc with
        | none => none
        | some n =>
          if c.isDigit then some (n * 10 + (c.toNat - '0'.toNat)) else none)
      (some 0)

/-- Python `int(s)` on the values this service reads: an optional minus sign
followed by decimal digits; `none` models the raised `ValueError`. -/
def pyInt (s : String) : Option Int :=
  match s.data with
  | '-' :: rest => (digitsToNat rest).map (fun n => -(n : Int))
  | cs => (digitsToNat cs).map (fun n => (n : Int))

/-- Line 126 of `app.py`:
`text = " ".join(seg.text.strip() for seg in segments).strip()`. -/
def joinSegments (segments : List String) : String :=
  pyStrip (pyJoin " " (segments.map pyStrip))

/-! ### Responses -/

/-- The JSON responses the two API handlers can produce.  `httpException`
stands for a raised `fastapi.HTTPException` (rendered by the framework as a
`{"detail": ...}` body with the given status); the other constructors are the
explicit `JSONResponse`/dict returns of the handlers. -/
inductive Response where
  /-- `JSONResponse({"ok": True, "question_id": question_id, "transcript": text})` -/
  | transcribeOk (question_id : Option String) (transcript : String)
  /-- `{"ok": True, "message": "Submitted and emailed"}` -/
  | submitOk (message : String)
  /-- `JSONResponse({"ok": False, "error": str(e)}, status_code=...)` -/
  | errorEnvelope (error : String) (status : Nat)
  /-- `raise HTTPException(status_code=..., detail=...)` -/
  | httpException (status : Nat) (detail : String)
deriving DecidableEq, Repr

/-- The `ok` flag carried by the JSON body, when the handler itself builds the
body (`none` for a raised `HTTPException`, whose body is framework-built). -/
def Response.okFlag : Response → Option Bool
  | .transcribeOk _ _ => some true
  | .submitOk _ => some true
  | .errorEnvelope _ _ => some false
  | .httpException _ _ => none

/-- HTTP status of the response (success returns are 200). -/
def Response.status : Response → Nat
  | .transcribeOk _ _ => 200
  | .submitOk _ => 200
  | .errorEnvelope _ s => s
  | .httpException s _ => s

/-! ### The transcription endpoint `/api/transcribe` (lines 105–135) -/

/-- The fields of `fastapi.UploadFile` that the handler reads. -/
structure UploadFile where
  filename : Option String
  content_type : Option String

/-- The keyword arguments of the `model.transcribe(...)` call (lines 120–125). -/
structure TranscribeOptions where
  vad_filter : Bool
  language : String
  beam_size : Nat
deriving DecidableEq, Repr

/-- Python `s.startswith(p)`: `p`'s characters are an initial run of `s`'s. -/
def startswith (s p : String) : Bool :=
  List.isPrefixOf p.data s.data

/-- Line 108: `file.content_type and not any(file.content_type.startswith(p)
for p in ("audio/", "video/"))` — the content type is rejected iff it is
present, non-empty (Python truthiness) and starts with neither
media-type marker. -/
def contentTypeRejected (ct : Option String) : Bool :=
  match ct with
  | none => false
  | some s => s != "" && !(startswith s "audio/" || startswith s "video/")

/-- Observable outcome of one `/api/transcribe` request: the response plus the
scratch-file facts needed by the claims. -/
structure TranscribeOutcome where
  response : Response
  /-- `tempfile.NamedTemporaryFile(delete=False, ...)` ran, so a scratch file
  was created on disk during the request. -/
  scratchCreated : Bool
  /-- the scratch file still exists on disk after the handler finished -/
  scratchExists : Bool
  /-- the `finally` block reached `os.remove(tmp_path)` -/
  removalAttempted : Bool
  /-- the options of the `model.transcribe` call, `none` if the model was
  never invoked -/
  modelCall : Option TranscribeOptions

/-- The `/api/transcribe` handler (lines 105–135).

Inputs standing for the outside world:
* `env` — the process environment (the handler body reads no environment
  value; it is a parameter so that theorems can quantify over configurations);
* `write` — what `shutil.copyfileobj(file.file, tmp)` did (`.ok ()` or raised
  with message `e`);
* `modelResult` — what `model.transcribe(...)` did: the list of segment texts,
  or the raised error's message;
* `removeOk` — whether `os.remove(tmp_path)` succeeded when reached.

Control flow mirrored from the source: the content-type guard raises before
the `try`; `tmp_path = tmp.name` runs only after `copyfileobj` returns, so
when the copy raises, `tmp_path` is still `None` and the `finally` block skips
the removal; a removal failure is swallowed by the inner `try/except: pass`. -/
def transcribe (env : String → Option String) (file : UploadFile)
    (question_id : Option String) (write : Except String Unit)
    (modelResult : Except String (List String)) (removeOk : Bool) :
    TranscribeOutcome :=
  let _ := env
  if contentTypeRejected file.content_type then
    { response := .httpException 400
        ("Unsupported content type: " ++ (file.content_type.getD "")),
      scratchCreated := false, scratchExists := false,
      removalAttempted := false, modelCall := none }
  else
    match write with
    | .error e =>
      -- `copyfileobj` raised before `tmp_path = tmp.name`: `tmp_path` is
      -- `None`, so `finally` skips `os.remove` and the scratch file persists.
      { response := .errorEnvelope e 500,
        scratchCreated := true, scratchExists := true,
        removalAttempted := false, modelCall := none }
    | .ok _ =>
      let call : TranscribeOptions :=
        { vad_filter := true, language := "en", beam_size := 1 }
      let resp : Response :=
        match modelResult with
        | .ok segments => .transcribeOk question_id (joinSegments segments)
        | .error e => .errorEnvelope e 500
      { response := resp,
        scratchCreated := true,
        scratchExists := !removeOk,   -- removal failure is swallowed
        removalAttempted := true,
        modelCall := some call }

/-! ### Email configuration (lines 25–29) and `send_email` (lines 64–77) -/

/-- The five module-level email settings, as computed at startup. -/
structure EmailConfig where
  EMAIL_HOST : String
  EMAIL_PORT : Int
  EMAIL_USER : String
  EMAIL_PASS : String
  EMAIL_TO : String
deriving DecidableEq, Repr

/-- Lines 25–29: the settings read from the environment with their defaults.
`os.environ.get(k, d)` returns the stored value whenever the key is present
(even the empty string) and `d` only when the key is absent; `EMAIL_TO`'s
default is `EMAIL_USER or ""`.  `int(...)` on an unparsable `EMAIL_PORT`
raises at import time, modelled as `none` (the process never starts). -/
def configFromEnv (env : String → Option String) : Option EmailConfig :=
  match pyInt ((env "EMAIL_PORT").getD "587") with
  | none => none
  | some port =>
    let user := (env "EMAIL_USER").getD ""
    some { EMAIL_HOST := (env "EMAIL_HOST").getD "smtp.gmail.com",
           EMAIL_PORT := port,
           EMAIL_USER := user,
           EMAIL_PASS := (env "EMAIL_PASS").getD "",
           EMAIL_TO := (env "EMAIL_TO").getD (if user != "" then user else "") }

/-- Line 65: `EMAIL_HOST and EMAIL_PORT and EMAIL_USER and EMAIL_PASS and
EMAIL_TO` — Python truthiness: a string is truthy iff non-empty, the int
`EMAIL_PORT` iff non-zero. -/
def emailConfigured (c : EmailConfig) : Bool :=
  c.EMAIL_HOST != "" && c.EMAIL_PORT != 0 && c.EMAIL_USER != "" &&
    c.EMAIL_PASS != "" && c.EMAIL_TO != ""

/-- The headers and plain-text content of one `email.message.EmailMessage`
as `send_email` fills it in (lines 67–71). -/
structure EmailMessage where
  From : String
  To : String
  Subject : String
  content : String
deriving DecidableEq, Repr

/-- Observable outcome of one `send_email` call. -/
structure SendOutcome where
  /-- normal return, or the raised exception's message -/
  result : Except String Unit
  /-- `smtplib.SMTP(...)` was entered, i.e. a network connection was attempted -/
  networkAttempted : Bool
  /-- the messages actually handed to `server.send_message` -/
  sentMessages : List EmailMessage

/-- `send_email` (lines 64–77).  `smtp` says what the SMTP session
(`connect`/`starttls`/`login`/`send_message`) did once attempted: completed,
or raised with a message.  The configuration check precedes any network
activity and raises `RuntimeError` when it fails. -/
def send_email (c : EmailConfig) (subject body : String)
    (smtp : Except String Unit) : SendOutcome :=
  if !emailConfigured c then
    { result := .error "Email is not configured (missing EMAIL_* env vars).",
      networkAttempted := false, sentMessages := [] }
  else
    match smtp with
    | .error e =>
      { result := .error e, networkAttempted := true, sentMessages := [] }
    | .ok _ =>
      { result := .ok (),
        networkAttempted := true,
        sentMessages := [{ From := c.EMAIL_USER, To := c.EMAIL_TO,
                           Subject := subject, content := body }] }

/-! ### The submission endpoint `/api/submit` (lines 80–102) -/

/-- The f-string body built on lines 87–97. -/
def submissionBody (name email answers transcript : String) : String :=
  "New questionnaire submission\n\nName: " ++ name ++ "\nEmail: " ++ email ++
    "\n\nAnswers:\n" ++ answers ++ "\n\nTranscript:\n" ++ transcript ++ "\n"

/-- Observable outcome of one `/api/submit` request. -/
structure SubmitOutcome where
  response : Response
  networkAttempted : Bool
  sentMessages : List EmailMessage
  /-- the subject passed to `send_email` -/
  emailSubject : String
  /-- the body passed to `send_email` -/
  emailBody : String

/-- The `/api/submit` handler (lines 80–102).  `form` is the multipart form of
the request; each of the four fields is declared `Form("")`, so a missing
field defaults to the empty string and is never a validation error.  `smtp`
is what the SMTP session did once attempted, as in `send_email`. -/
def submit_questionnaire (form : String → Option String) (c : EmailConfig)
    (smtp : Except String Unit) : SubmitOutcome :=
  let name := (form "name").getD ""
  let email := (form "email").getD ""
  let answers := (form "answers").getD ""
  let transcript := (form "transcript").getD ""
  let body := submissionBody name email answers transcript
  let sent := send_email c "New Questionnaire Submission" body smtp
  let resp : Response :=
    match sent.result with
    | .ok _ => .submitOk "Submitted and emailed"
    | .error e => .errorEnvelope e 500
  { response := resp,
    networkAttempted := sent.networkAttempted,
    sentMessages := sent.sentMessages,
    emailSubject := "New Questionnaire Submission",
    emailBody := body }

/-! ### Helper lemmas -/

/-- The first character of a stripped string is never whitespace. -/
theorem pyStrip_head_not_white (s : String) :
    ∀ c, (pyStrip s).data.head? = some c → c.isWhitespace = false := by
  intro c h
  have hr : ((s.data.dropWhile Char.isWhitespace).reverse.dropWhile
      Char.isWhitespace).getLast? = some c := by
    simpa [pyStrip] using h
  have hne : (s.data.dropWhile Char.isWhitespace).reverse.dropWhile
      Char.isWhitespace ≠ [] := by
    intro hnil
    rw [hnil] at hr
    simp at hr
  obtain ⟨t, ht⟩ :=
    List.dropWhile_suffix (l := (s.data.dropWhile Char.isWhitespace).reverse)
      Char.isWhitespace
  have hm : (s.data.dropWhile Char.isWhitespace).head? = some c := by
    have happ := List.getLast?_append_of_ne_nil t hne
    rw [ht, List.getLast?_reverse] at happ
    rw [happ, hr]
  have hw := List.head?_dropWhile_not Char.isWhitespace s.data
  rw [hm] at hw
  exact hw

/-- The last character of a stripped string is never whitespace. -/
theorem pyStrip_last_not_white (s : String) :
    ∀ c, (pyStrip s).data.getLast? = some c → c.isWhitespace = false := by
  intro c h
  have hr : ((s.data.dropWhile Char.isWhitespace).reverse.dropWhile
      Char.isWhitespace).head? = some c := by
    simpa [pyStrip] using h
  have hw := List.head?_dropWhile_not Char.isWhitespace
      (s.data.dropWhile Char.isWhitespace).reverse
  rw [hr] at hw
  exact hw

/-- Each submitted field occurs literally in the formatted submission body. -/
theorem submissionBody_contains (n e a t : String) :
    n.data <:+: (submissionBody n e a t).data ∧
    e.data <:+: (submissionBody n e a t).data ∧
    a.data <:+: (submissionBody n e a t).data ∧
    t.data <:+: (submissionBody n e a t).data := by
  refine ⟨⟨"New questionnaire submission\n\nName: ".data,
      ("\nEmail: " ++ e ++ "\n\nAnswers:\n" ++ a ++ "\n\nTranscript:\n" ++
        t ++ "\n").data, ?_⟩,
    ⟨("New questionnaire submission\n\nName: " ++ n ++ "\nEmail: ").data,
      ("\n\nAnswers:\n" ++ a ++ "\n\nTranscript:\n" ++ t ++ "\n").data, ?_⟩,
    ⟨("New questionnaire submission\n\nName: " ++ n ++ "\nEmail: " ++ e ++
        "\n\nAnswers:\n").data,
      ("\n\nTranscript:\n" ++ t ++ "\n").data, ?_⟩,
    ⟨("New questionnaire submission\n\nName: " ++ n ++ "\nEmail: " ++ e ++
        "\n\nAnswers:\n" ++ a ++ "\n\nTranscript:\n").data, "\n".data, ?_⟩⟩ <;>
    simp [submissionBody]

/-! ### Claims -/

/-- **C1** (counterexample).  The claim asserts that the transcript of
`/api/transcribe` has no double spaces arising from empty segments; but for
the segment list `["a", "", "b"]` the handler returns the transcript
`"a  b"`, which contains two consecutive spaces produced by the empty
interior segment. -/
theorem C1_counterexample :
    (transcribe (fun _ => none) ⟨some "a.webm", some "audio/webm"⟩ none
        (.ok ()) (.ok ["a", "", "b"]) true).response
      = .transcribeOk none "a  b" ∧ [' ', ' '] <:+: "a  b".data :=
  ⟨by decide, ⟨['a'], ['b'], by decide⟩⟩

/-- **C1** (amended).  For every successful transcription, the transcript is
exactly the segments' stripped texts joined with single-space separators with
the overall result stripped, and it has no leading or trailing whitespace;
interior segments that strip to the empty string can still leave double
spaces in the middle. -/
theorem C1_join_and_trim (env : String → Option String) (file : UploadFile)
    (qid : Option String) (segs : List String) (rm : Bool)
    (h : contentTypeRejected file.content_type = false) :
    (transcribe env file qid (.ok ()) (.ok segs) rm).response
        = .transcribeOk qid (pyStrip (pyJoin " " (segs.map pyStrip))) ∧
    (∀ c, (joinSegments segs).data.head? = some c → c.isWhitespace = false) ∧
    (∀ c, (joinSegments segs).data.getLast? = some c →
        c.isWhitespace = false) := by
  refine ⟨?_, pyStrip_head_not_white _, pyStrip_last_not_white _⟩
  simp [transcribe, h, joinSegments]

/-- **C1** witness: the amended statement at a concrete request. -/
theorem C1_join_and_trim_witness :
    (transcribe (fun _ => none) ⟨some "x.webm", some "audio/webm"⟩ (some "q7")
        (.ok ()) (.ok ["  hello ", "world  "]) true).response
        = .transcribeOk (some "q7")
            (pyStrip (pyJoin " " (["  hello ", "world  "].map pyStrip))) ∧
    (∀ c, (joinSegments ["  hello ", "world  "]).data.head? = some c →
        c.isWhitespace = false) ∧
    (∀ c, (joinSegments ["  hello ", "world  "]).data.getLast? = some c →
        c.isWhitespace = false) :=
  C1_join_and_trim (fun _ => none) ⟨some "x.webm", some "audio/webm"⟩
    (some "q7") ["  hello ", "world  "] true (by decide)

/-- **C2** (code bug).  When `shutil.copyfileobj` raises while writing the
upload, `tmp_path` is still `None`, so the `finally` block never reaches
`os.remove`: the scratch file created by `NamedTemporaryFile` survives the
request, contradicting the claim that it no longer exists on every exit path.
The second conjunct shows the swallowing on a normal path: when the removal
itself fails, the 200 response is unchanged. -/
theorem C2_scratch_file_leak :
    ((transcribe (fun _ => none) ⟨some "a.webm", some "audio/webm"⟩ none
        (.error "client disconnected during upload") (.ok []) true).scratchCreated
        = true ∧
      (transcribe (fun _ => none) ⟨some "a.webm", some "audio/webm"⟩ none
        (.error "client disconnected during upload") (.ok []) true).scratchExists
        = true ∧
      (transcribe (fun _ => none) ⟨some "a.webm", some "audio/webm"⟩ none
        (.error "client disconnected during upload") (.ok []) true).removalAttempted
        = false ∧
      (transcribe (fun _ => none) ⟨some "a.webm", some "audio/webm"⟩ none
        (.error "client disconnected during upload") (.ok []) true).response
        = .errorEnvelope "client disconnected during upload" 500) ∧
    (transcribe (fun _ => none) ⟨some "a.webm", some "audio/webm"⟩ none
        (.ok ()) (.ok ["hi"]) false).response = .transcribeOk none "hi" := by
  refine ⟨⟨by decide, by decide, by decide, by decide⟩, by decide⟩

/-- **C3**.  A present, non-empty content type that starts with neither
`audio/` nor `video/` yields the 400 `HTTPException` and the model is never
invoked; an absent or empty content type is not rejected on content-type
grounds: once the upload is written, the handler reaches the model
invocation and never raises the 400. -/
theorem C3_content_type_guard :
    (∀ (env : String → Option String) (fn qid : Option String)
        (write : Except String Unit)
        (modelResult : Except String (List String)) (rm : Bool) (s : String),
        s ≠ "" → startswith s "audio/" = false → startswith s "video/" = false →
        (transcribe env ⟨fn, some s⟩ qid write modelResult rm).response
            = .httpException 400 ("Unsupported content type: " ++ s) ∧
        (transcribe env ⟨fn, some s⟩ qid write modelResult rm).modelCall
            = none) ∧
    (∀ (env : String → Option String) (fn qid : Option String)
        (modelResult : Except String (List String)) (rm : Bool)
        (ct : Option String), ct = none ∨ ct = some "" →
        (transcribe env ⟨fn, ct⟩ qid (.ok ()) modelResult rm).modelCall
            = some { vad_filter := true, language := "en", beam_size := 1 } ∧
        ∀ st d, (transcribe env ⟨fn, ct⟩ qid (.ok ()) modelResult rm).response
            ≠ .httpException st d) := by
  constructor
  · intro env fn qid write modelResult rm s hs h1 h2
    have hr : contentTypeRejected (some s) = true := by
      simp [contentTypeRejected, h1, h2, bne_iff_ne, hs]
    exact ⟨by simp [transcribe, hr], by simp [transcribe, hr]⟩
  · intro env fn qid modelResult rm ct hct
    have hr : contentTypeRejected ct = false := by
      rcases hct with h | h <;> subst h <;> simp [contentTypeRejected]
    cases modelResult <;> simp [transcribe, hr]

/-- **C3** witness: `image/png` is rejected with 400 and no model call; an
absent content type proceeds to the model invocation. -/
theorem C3_content_type_guard_witness :
    ((transcribe (fun _ => none) ⟨none, some "image/png"⟩ none (.ok ())
        (.ok []) true).response
        = .httpException 400 ("Unsupported content type: " ++ "image/png") ∧
      (transcribe (fun _ => none) ⟨none, some "image/png"⟩ none (.ok ())
        (.ok []) true).modelCall = none) ∧
    ((transcribe (fun _ => none) ⟨none, none⟩ none (.ok ()) (.ok [])
        true).modelCall
        = some { vad_filter := true, language := "en", beam_size := 1 } ∧
      ∀ st d, (transcribe (fun _ => none) ⟨none, none⟩ none (.ok ()) (.ok [])
        true).response ≠ .httpException st d) :=
  ⟨C3_content_type_guard.1 (fun _ => none) none none (.ok ()) (.ok []) true
      "image/png" (by decide) (by decide) (by decide),
    C3_content_type_guard.2 (fun _ => none) none none (.ok []) true none
      (Or.inl rfl)⟩

/-- **C4**.  If any one of the five email settings is missing (falsy under
Python truthiness), `/api/submit` returns the `ok: false` configuration-error
envelope with status 500 and no network connection is attempted. -/
theorem C4_missing_config (c : EmailConfig) (form : String → Option String)
    (smtp : Except String Unit)
    (h : c.EMAIL_HOST = "" ∨ c.EMAIL_PORT = 0 ∨ c.EMAIL_USER = "" ∨
         c.EMAIL_PASS = "" ∨ c.EMAIL_TO = "") :
    (submit_questionnaire form c smtp).response
        = .errorEnvelope
            "Email is not configured (missing EMAIL_* env vars)." 500 ∧
    (submit_questionnaire form c smtp).response.okFlag = some false ∧
    (submit_questionnaire form c smtp).response.status = 500 ∧
    (submit_questionnaire form c smtp).networkAttempted = false := by
  have hc : emailConfigured c = false := by
    rcases h with h | h | h | h | h <;> simp [emailConfigured, h]
  refine ⟨?_, ?_, ?_, ?_⟩ <;>
    simp [submit_questionnaire, send_email, hc, Response.okFlag,
      Response.status]

/-- **C4** witness: a configuration with an empty `EMAIL_USER`. -/
theorem C4_missing_config_witness :
    (submit_questionnaire (fun _ => none)
        ⟨"smtp.gmail.com", 587, "", "pw", "me@example.com"⟩ (.ok ())).response
        = .errorEnvelope
            "Email is not configured (missing EMAIL_* env vars)." 500 ∧
    (submit_questionnaire (fun _ => none)
        ⟨"smtp.gmail.com", 587, "", "pw", "me@example.com"⟩
        (.ok ())).response.okFlag = some false ∧
    (submit_questionnaire (fun _ => none)
        ⟨"smtp.gmail.com", 587, "", "pw", "me@example.com"⟩
        (.ok ())).response.status = 500 ∧
    (submit_questionnaire (fun _ => none)
        ⟨"smtp.gmail.com", 587, "", "pw", "me@example.com"⟩
        (.ok ())).networkAttempted = false :=
  C4_missing_config ⟨"smtp.gmail.com", 587, "", "pw", "me@example.com"⟩
    (fun _ => none) (.ok ()) (Or.inr (Or.inr (Or.inl rfl)))

/-- **C5**.  Every response of the two API handlers is one of the structured
forms (success body, 400 `HTTPException`, or `ok: false` envelope with status
500) — no input makes an exception escape unhandled — and every
runtime/transport failure (upload write, model decode, configuration check,
SMTP session) is reported as the `ok: false` envelope with status 500
carrying the underlying failure's message. -/
theorem C5_structured_failures :
    (∀ (env : String → Option String) (file : UploadFile)
        (qid : Option String) (write : Except String Unit)
        (modelResult : Except String (List String)) (rm : Bool),
        (∃ q t, (transcribe env file qid write modelResult rm).response
            = .transcribeOk q t) ∨
        (∃ d, (transcribe env file qid write modelResult rm).response
            = .httpException 400 d) ∨
        (∃ e, (transcribe env file qid write modelResult rm).response
            = .errorEnvelope e 500)) ∧
    (∀ (env : String → Option String) (file : UploadFile)
        (qid : Option String) (modelResult : Except String (List String))
        (rm : Bool) (e : String),
        contentTypeRejected file.content_type = false →
        (transcribe env file qid (.error e) modelResult rm).response
            = .errorEnvelope e 500 ∧
        (transcribe env file qid (.ok ()) (.error e) rm).response
            = .errorEnvelope e 500 ∧
        (Response.errorEnvelope e 500).okFlag = some false) ∧
    (∀ (form : String → Option String) (c : EmailConfig)
        (smtp : Except String Unit),
        ((submit_questionnaire form c smtp).response
            = .submitOk "Submitted and emailed" ∨
         ∃ e, (submit_questionnaire form c smtp).response
            = .errorEnvelope e 500) ∧
        (emailConfigured c = true → ∀ e,
          (submit_questionnaire form c (.error e)).response
              = .errorEnvelope e 500)) := by
  refine ⟨?_, ?_, ?_⟩
  · intro env file qid write modelResult rm
    by_cases hr : contentTypeRejected file.content_type
    · exact Or.inr (Or.inl
        ⟨"Unsupported content type: " ++ file.content_type.getD "",
          by simp [transcribe, hr]⟩)
    · simp only [Bool.not_eq_true] at hr
      cases write with
      | error e => exact Or.inr (Or.inr ⟨e, by simp [transcribe, hr]⟩)
      | ok u =>
        cases u
        cases modelResult with
        | ok segs =>
          exact Or.inl ⟨qid, joinSegments segs, by simp [transcribe, hr]⟩
        | error e => exact Or.inr (Or.inr ⟨e, by simp [transcribe, hr]⟩)
  · intro env file qid modelResult rm e hr
    exact ⟨by simp [transcribe, hr], by simp [transcribe, hr],
      by simp [Response.okFlag]⟩
  · intro form c smtp
    constructor
    · by_cases hc : emailConfigured c
      · cases smtp with
        | error e =>
          exact Or.inr ⟨e, by simp [submit_questionnaire, send_email, hc]⟩
        | ok u =>
          cases u
          exact Or.inl (by simp [submit_questionnaire, send_email, hc])
      · simp only [Bool.not_eq_true] at hc
        exact Or.inr ⟨"Email is not configured (missing EMAIL_* env vars).",
          by simp [submit_questionnaire, send_email, hc]⟩
    · intro hc e
      simp [submit_questionnaire, send_email, hc]

/-- **C5** witness: an upload-write failure, a model failure and an SMTP
failure, each reported as the `ok: false` 500 envelope with its message. -/
theorem C5_structured_failures_witness :
    (transcribe (fun _ => none) ⟨none, some "audio/webm"⟩ none
        (.error "disk full") (.ok []) true).response
        = .errorEnvelope "disk full" 500 ∧
    (transcribe (fun _ => none) ⟨none, some "audio/webm"⟩ none (.ok ())
        (.error "decode failed") true).response
        = .errorEnvelope "decode failed" 500 ∧
    (submit_questionnaire (fun _ => none)
        ⟨"smtp.gmail.com", 587, "u", "p", "t"⟩
        (.error "SMTP auth failed")).response
        = .errorEnvelope "SMTP auth failed" 500 :=
  ⟨(C5_structured_failures.2.1 (fun _ => none) ⟨none, some "audio/webm"⟩ none
      (.ok []) true "disk full" (by decide)).1,
    (C5_structured_failures.2.1 (fun _ => none) ⟨none, some "audio/webm"⟩ none
      (.ok []) true "decode failed" (by decide)).2.1,
    (C5_structured_failures.2.2 (fun _ => none)
      ⟨"smtp.gmail.com", 587, "u", "p", "t"⟩ (.ok ())).2 (by decide)
      "SMTP auth failed"⟩

/-- **C6** (counterexample).  The decoding effort is not configurable: under
two environments giving every variable different values, the model invocation
still carries the hard-coded `beam_size = 1` (line 124 is the literal `1`),
together with the fixed `language = "en"` and `vad_filter = True`. -/
theorem C6_counterexample :
    (transcribe (fun _ => some "5") ⟨none, some "audio/webm"⟩ none (.ok ())
        (.ok ["hi"]) true).modelCall
      = some { vad_filter := true, language := "en", beam_size := 1 } ∧
    (transcribe (fun _ => some "32") ⟨none, some "audio/webm"⟩ none (.ok ())
        (.ok ["hi"]) true).modelCall
      = some { vad_filter := true, language := "en", beam_size := 1 } :=
  ⟨by decide, by decide⟩

/-- **C6** (amended).  Every model invocation of `/api/transcribe` uses the
fixed target language `"en"`, VAD silence filtering enabled, and the constant
beam size 1; the decoding effort is hard-coded, not configurable. -/
theorem C6_fixed_options (env : String → Option String) (file : UploadFile)
    (qid : Option String) (modelResult : Except String (List String))
    (rm : Bool) (h : contentTypeRejected file.content_type = false) :
    (transcribe env file qid (.ok ()) modelResult rm).modelCall
      = some { vad_filter := true, language := "en", beam_size := 1 } := by
  cases modelResult <;> simp [transcribe, h]

/-- **C6** witness: the fixed options at a concrete request. -/
theorem C6_fixed_options_witness :
    (transcribe (fun _ => none) ⟨some "a.mp4", some "video/mp4"⟩ (some "q1")
        (.ok ()) (.ok ["hello"]) true).modelCall
      = some { vad_filter := true, language := "en", beam_size := 1 } :=
  C6_fixed_options (fun _ => none) ⟨some "a.mp4", some "video/mp4"⟩
    (some "q1") (.ok ["hello"]) true (by decide)

/-- The multipart form holding exactly the four `/api/submit` fields. -/
def formOf (name email answers transcript : String) :
    String → Option String :=
  fun k =>
    if k = "name" then some name
    else if k = "email" then some email
    else if k = "answers" then some answers
    else if k = "transcript" then some transcript
    else none

/-- **C7**.  With a complete email configuration and a working SMTP session,
`/api/submit` sends exactly one message, whose headers are the fixed
`From = EMAIL_USER`, `To = EMAIL_TO`, `Subject = "New Questionnaire
Submission"`, and whose plain-text body contains the literal `name`, `email`,
`answers` and `transcript` values as submitted. -/
theorem C7_single_message (c : EmailConfig) (n e a t : String)
    (hc : emailConfigured c = true) :
    (submit_questionnaire (formOf n e a t) c (.ok ())).sentMessages
        = [{ From := c.EMAIL_USER, To := c.EMAIL_TO,
             Subject := "New Questionnaire Submission",
             content := submissionBody n e a t }] ∧
    n.data <:+: (submissionBody n e a t).data ∧
    e.data <:+: (submissionBody n e a t).data ∧
    a.data <:+: (submissionBody n e a t).data ∧
    t.data <:+: (submissionBody n e a t).data := by
  refine ⟨?_, submissionBody_contains n e a t⟩
  simp [submit_questionnaire, send_email, hc, formOf]

/-- **C7** witness: a concrete configured submission. -/
theorem C7_single_message_witness :
    (submit_questionnaire (formOf "Ann" "ann@example.com" "[1,2]" "hi there")
        ⟨"smtp.example.com", 2525, "alice", "pw", "bob@example.com"⟩
        (.ok ())).sentMessages
        = [{ From := "alice", To := "bob@example.com",
             Subject := "New Questionnaire Submission",
             content := submissionBody "Ann" "ann@example.com" "[1,2]"
               "hi there" }] ∧
    "Ann".data <:+:
      (submissionBody "Ann" "ann@example.com" "[1,2]" "hi there").data ∧
    "ann@example.com".data <:+:
      (submissionBody "Ann" "ann@example.com" "[1,2]" "hi there").data ∧
    "[1,2]".data <:+:
      (submissionBody "Ann" "ann@example.com" "[1,2]" "hi there").data ∧
    "hi there".data <:+:
      (submissionBody "Ann" "ann@example.com" "[1,2]" "hi there").data :=
  C7_single_message ⟨"smtp.example.com", 2525, "alice", "pw",
    "bob@example.com"⟩ "Ann" "ann@example.com" "[1,2]" "hi there" (by decide)

/-- **C8**.  Every successful `/api/transcribe` response carries exactly the
caller-supplied `question_id`, whatever its content — the handler never
inspects it — and when the caller supplies no `question_id` the response
carries `none` (JSON `null`). -/
theorem C8_question_id_echo (env : String → Option String)
    (file : UploadFile) (qid : Option String) (segs : List String) (rm : Bool)
    (h : contentTypeRejected file.content_type = false) :
    (transcribe env file qid (.ok ()) (.ok segs) rm).response
      = .transcribeOk qid (joinSegments segs) := by
  simp [transcribe, h]

/-- **C8** witness: an uninterpreted identifier is echoed byte-for-byte, and
an absent identifier comes back as `none`. -/
theorem C8_question_id_echo_witness :
    (transcribe (fun _ => none) ⟨none, some "audio/webm"⟩
        (some "## weird\n id ##") (.ok ()) (.ok ["ok"]) true).response
      = .transcribeOk (some "## weird\n id ##") (joinSegments ["ok"]) ∧
    (transcribe (fun _ => none) ⟨none, none⟩ none (.ok ()) (.ok ["ok"])
        true).response
      = .transcribeOk none (joinSegments ["ok"]) :=
  ⟨C8_question_id_echo (fun _ => none) ⟨none, some "audio/webm"⟩
      (some "## weird\n id ##") ["ok"] true (by decide),
    C8_question_id_echo (fun _ => none) ⟨none, none⟩ none ["ok"] true
      (by decide)⟩

/-- **C9**.  All four `/api/submit` form fields default to the empty string:
a POST supplying none of them is not rejected as a client error; the handler
formats the body with empty values and proceeds to the email send, whose
result alone determines the response. -/
theorem C9_empty_form_defaults (c : EmailConfig) (smtp : Except String Unit) :
    (submit_questionnaire (fun _ => none) c smtp).emailBody
        = "New questionnaire submission\n\nName: \nEmail: \n\nAnswers:\n\n\nTranscript:\n\n" ∧
    (∀ st d, (submit_questionnaire (fun _ => none) c smtp).response
        ≠ .httpException st d) ∧
    ((submit_questionnaire (fun _ => none) c smtp).response
        = .submitOk "Submitted and emailed" ∨
      ∃ e, (submit_questionnaire (fun _ => none) c smtp).response
        = .errorEnvelope e 500) := by
  refine ⟨?_, ?_, ?_⟩
  · show submissionBody "" "" "" "" = _
    decide
  · by_cases hc : emailConfigured c
    · cases smtp with
      | error e => simp [submit_questionnaire, send_email, hc]
      | ok u => cases u; simp [submit_questionnaire, send_email, hc]
    · simp only [Bool.not_eq_true] at hc
      simp [submit_questionnaire, send_email, hc]
  · by_cases hc : emailConfigured c
    · cases smtp with
      | error e =>
        exact Or.inr ⟨e, by simp [submit_questionnaire, send_email, hc]⟩
      | ok u =>
        cases u
        exact Or.inl (by simp [submit_questionnaire, send_email, hc])
    · simp only [Bool.not_eq_true] at hc
      exact Or.inr ⟨"Email is not configured (missing EMAIL_* env vars).",
        by simp [submit_questionnaire, send_email, hc]⟩

/-- **C10**.  When `EMAIL_TO` is absent from the environment it defaults at
startup to `EMAIL_USER`, so an environment supplying only host, port,
username and password still passes the five-value completeness check, and
every message is sent to the sender's own address. -/
theorem C10_email_to_defaults_to_user (env : String → Option String)
    (pt : Int) (hTO : env "EMAIL_TO" = none)
    (hPort : pyInt ((env "EMAIL_PORT").getD "587") = some pt) (hPt : pt ≠ 0)
    (hHost : (env "EMAIL_HOST").getD "smtp.gmail.com" ≠ "")
    (hUser : (env "EMAIL_USER").getD "" ≠ "")
    (hPass : (env "EMAIL_PASS").getD "" ≠ "") :
    ∃ c, configFromEnv env = some c ∧
      c.EMAIL_TO = c.EMAIL_USER ∧
      emailConfigured c = true ∧
      ∀ form, (submit_questionnaire form c (.ok ())).sentMessages.map
          (fun m => m.To) = [c.EMAIL_USER] := by
  have hu : ((env "EMAIL_USER").getD "" != "") = true := by
    simpa [bne_iff_ne] using hUser
  have hc : emailConfigured
      { EMAIL_HOST := (env "EMAIL_HOST").getD "smtp.gmail.com",
        EMAIL_PORT := pt,
        EMAIL_USER := (env "EMAIL_USER").getD "",
        EMAIL_PASS := (env "EMAIL_PASS").getD "",
        EMAIL_TO := (env "EMAIL_USER").getD "" } = true := by
    simp [emailConfigured, bne_iff_ne, hUser, hPass, hHost, hPt]
  refine ⟨{ EMAIL_HOST := (env "EMAIL_HOST").getD "smtp.gmail.com",
            EMAIL_PORT := pt,
            EMAIL_USER := (env "EMAIL_USER").getD "",
            EMAIL_PASS := (env "EMAIL_PASS").getD "",
            EMAIL_TO := (env "EMAIL_USER").getD "" }, ?_, rfl, hc, ?_⟩
  · simp [configFromEnv, hPort, hTO, hu]
  · intro form
    simp [submit_questionnaire, send_email, hc]

/-- An environment supplying only the four settings other than `EMAIL_TO`. -/
def envOnlyFour : String → Option String :=
  fun k =>
    if k = "EMAIL_HOST" then some "smtp.example.com"
    else if k = "EMAIL_PORT" then some "2525"
    else if k = "EMAIL_USER" then some "alice@example.com"
    else if k = "EMAIL_PASS" then some "hunter2"
    else none

/-- **C10** witness: the default at a concrete four-variable environment. -/
theorem C10_email_to_defaults_to_user_witness :
    ∃ c, configFromEnv envOnlyFour = some c ∧
      c.EMAIL_TO = c.EMAIL_USER ∧
      emailConfigured c = true ∧
      ∀ form, (submit_questionnaire form c (.ok ())).sentMessages.map
          (fun m => m.To) = [c.EMAIL_USER] :=
  C10_email_to_defaults_to_user envOnlyFour 2525 (by decide) (by decide)
    (by decide) (by decide) (by decide) (by decide)

end Lylo
